import Mathlib

/-!
Verification of the annotation search-filter core.

This file gives a shallow embedding of the filter engine implemented in
`src/sidebar/helpers/filter-annotations` (the `filterAnnotations` entry point
together with the `TermFilter` and `BooleanOpFilter` classes and the
`fieldMatchers` registry), and proves the specified properties about it.

Modelling conventions:
- JavaScript numbers that the engine manipulates (timestamps, the numeric
  `since` term, the clock) are modelled as rationals; `NaN` (the value of an
  unparseable date) is modelled as `none` in `Option ℚ`, and every numeric
  comparison involving `none` is false, exactly as every JS comparison with
  `NaN` is false.
- The call to `Date.now()` inside the `since` matcher is made explicit: the
  clock reading `now` is threaded as a parameter into every definition that
  the source builds below that call.
- A JavaScript exception during filter-tree construction (looking up an
  unknown field yields `undefined`, and the `TermFilter` constructor then
  throws when it calls `matcher.normalize`) is modelled by `Option`: `none`
  is a thrown exception, `some` a normal result.
- A structured query is the entry list of the JS query object, in insertion
  order, exactly what `Object.entries(filters)` yields.
-/

namespace SearchFilter

/-- A term or field value, as the engine sees it: JS strings, or JS numbers
(`num none` standing for `NaN`, e.g. an unparseable timestamp). -/
inductive TermValue where
  | str (s : String)
  | num (n : Option ℚ)
deriving DecidableEq

/-- An annotation record, restricted to the fields the engine reads.
`updated` is modelled from the spec as the epoch-milliseconds value of
`new Date(ann.updated).valueOf()` (`none` for an unparseable timestamp, i.e.
`NaN`), and `quote` models the external `quote(ann)` accessor of
`annotation-metadata` (absent quote is `none`, read back as the empty
string). `id` is `none` when the annotation has no identifier. -/
structure Annotation where
  id : Option String
  text : String
  tags : List String
  uri : String
  user : String
  user_info_display_name : Option String
  updated : Option ℚ
  quote : Option String

/-- Modelled from the spec: the external Text Normalizer
(`unicodeUtils.fold` after `unicodeUtils.normalize`, then `toLowerCase`),
which canonicalises a string for case- and diacritic-insensitive comparison:
combining marks are stripped and the string is lower-cased. It is a pure,
deterministic function of its argument, which is all the engine relies on. -/
def normalizeStr (val : String) : String :=
  String.mk
    ((val.data.filter (fun c => !(0x300 ≤ c.toNat && c.toNat ≤ 0x36F))).map Char.toLower)

/-- `startsWithSub l t` is true when `t` is a prefix of the character list
`l`; helper embedding JS `String.prototype.includes`. -/
def startsWithSub : List Char → List Char → Bool
  | _, [] => true
  | [], _ :: _ => false
  | c :: cs, d :: ds => c == d && startsWithSub cs ds

/-- `hasSub l t` is true when `t` occurs contiguously inside `l`. -/
def hasSub : List Char → List Char → Bool
  | [], t => t.isEmpty
  | c :: cs, t => startsWithSub (c :: cs) t || hasSub cs t

/-- Embedding of JS `value.includes(term)`: substring containment. -/
def strIncludes (value term : String) : Bool :=
  hasSub value.data term.data

/-- A Matcher: how to test whether an annotation matches a query term for a
specific field. `compare` embeds the source's `matches` property (`matches`
is a reserved word in Lean): it tests a normalized field value against a
normalized term. -/
structure Matcher where
  fieldValues : Annotation → List TermValue
  compare : TermValue → TermValue → Bool
  normalize : TermValue → TermValue

/-- Embedding of `stringFieldMatcher`: a matcher testing whether a query
term appears anywhere in a string field value. On the string values it is
actually applied to, `normalize` is `normalizeStr` and `compare` is
`value.includes(term)`; the numeric cases are unreachable for this matcher. -/
def stringFieldMatcher (fieldValues : Annotation → List TermValue) : Matcher where
  fieldValues := fieldValues
  compare := fun v t =>
    match v, t with
    | TermValue.str value, TermValue.str term => strIncludes value term
    | _, _ => false
  normalize := fun v =>
    match v with
    | TermValue.str s => TermValue.str (normalizeStr s)
    | other => other

/-- The `since` matcher, parameterised by the `Date.now()` reading `now`
(epoch ms). The field value is the annotation's `updated` time in epoch ms
(`none` = `NaN`); it matches a numeric term `age` iff
`(now - updatedTime) / 1000 ≤ age`, and any comparison involving `NaN` is
false. `normalize` is the identity. -/
def sinceMatcher (now : ℚ) : Matcher where
  fieldValues := fun ann => [TermValue.num ann.updated]
  compare := fun v t =>
    match v, t with
    | TermValue.num (some updatedTime), TermValue.num (some age) =>
        decide ((now - updatedTime) / 1000 ≤ age)
    | _, _ => false
  normalize := fun timestamp => timestamp

/-- The `quote` entry of the matcher registry: `quote(ann) ?? ''`. -/
def quoteMatcher : Matcher :=
  stringFieldMatcher (fun ann => [TermValue.str (ann.quote.getD "")])

/-- The `tag` entry of the matcher registry: all of `ann.tags`. -/
def tagMatcher : Matcher :=
  stringFieldMatcher (fun ann => ann.tags.map TermValue.str)

/-- The `text` entry of the matcher registry: `ann.text`. -/
def textMatcher : Matcher :=
  stringFieldMatcher (fun ann => [TermValue.str ann.text])

/-- The `uri` entry of the matcher registry: `ann.uri`. -/
def uriMatcher : Matcher :=
  stringFieldMatcher (fun ann => [TermValue.str ann.uri])

/-- The `user` entry of the matcher registry: `ann.user` and
`ann.user_info?.display_name ?? ''`. -/
def userMatcher : Matcher :=
  stringFieldMatcher (fun ann =>
    [TermValue.str ann.user, TermValue.str (ann.user_info_display_name.getD "")])

/-- Embedding of the `fieldMatchers` registry: map from field name to the
matcher for that field; `none` models the `undefined` lookup for an unknown
field. Only the `since` entry reads the clock. -/
def fieldMatchers (now : ℚ) (field : String) : Option Matcher :=
  if field = "quote" then some quoteMatcher
  else if field = "since" then some (sinceMatcher now)
  else if field = "tag" then some tagMatcher
  else if field = "text" then some textMatcher
  else if field = "uri" then some uriMatcher
  else if field = "user" then some userMatcher
  else none

/-- A filter node: either a `TermFilter` leaf (holding the term as already
normalized by the constructor, plus the matcher), or a `BooleanOpFilter`
combinator holding an operator string and its child filters. -/
inductive Filter where
  | term (t : TermValue) (matcher : Matcher)
  | boolOp (op : String) (filters : List Filter)

mutual

/-- `Filter.matches f ann`: evaluation of a filter node on an annotation.
A term leaf tests whether any extracted field value, once normalized,
satisfies the matcher's comparison against the stored term
(`TermFilter.matches`); a combinator node requires every child for the
`"and"` operator and some child otherwise (`BooleanOpFilter.matches`). -/
def Filter.matches : Filter → Annotation → Bool
  | .term t m, ann => (m.fieldValues ann).any (fun v => m.compare (m.normalize v) t)
  | .boolOp op fs, ann =>
      if op = "and" then Filter.allMatch fs ann else Filter.anyMatch fs ann

/-- `fs.every(filter => filter.matches(ann))` on a list of filters. -/
def Filter.allMatch : List Filter → Annotation → Bool
  | [], _ => true
  | f :: fs, ann => f.matches ann && Filter.allMatch fs ann

/-- `fs.some(filter => filter.matches(ann))` on a list of filters. -/
def Filter.anyMatch : List Filter → Annotation → Bool
  | [], _ => false
  | f :: fs, ann => f.matches ann || Filter.anyMatch fs ann

end

/-- A Facet: one field's query contribution, an ordered term list and the
operator combining the terms of that field. -/
structure Facet where
  terms : List TermValue
  operator : String
deriving DecidableEq

/-- `mapAll f l` embeds a JS `l.map(f)` whose callback may throw: `none` as
soon as one element throws, otherwise `some` of the mapped list. -/
def mapAll (f : α → Option β) : List α → Option (List β)
  | [] => some []
  | a :: as =>
    match f a with
    | none => none
    | some b => (mapAll f as).map (fun bs => b :: bs)

/-- Embedding of `makeTermFilter`: look the field up in the registry and
build a `TermFilter`, whose constructor normalizes the term once. A lookup
of an unknown field yields `undefined` and the constructor's call to
`matcher.normalize` then throws, modelled by `none`. -/
def makeTermFilter (now : ℚ) (field : String) (term : TermValue) : Option Filter :=
  (fieldMatchers now field).map (fun matcher => Filter.term (matcher.normalize term) matcher)

/-- The fixed field list that the `"any"` pseudo-field expands over. -/
def anyFields : List String := ["quote", "text", "tag", "user"]

/-- Embedding of the `termFilters` local of the tree builder: for the
`"any"` field, one OR-combinator per term over `anyFields`; otherwise one
term filter per term. -/
def termFiltersFor (now : ℚ) (field : String) (facet : Facet) : Option (List Filter) :=
  if field = "any" then
    mapAll
      (fun term =>
        (mapAll (fun f => makeTermFilter now f term) anyFields).map (Filter.boolOp "or"))
      facet.terms
  else
    mapAll (fun term => makeTermFilter now field term) facet.terms

/-- Embedding of the per-facet arm of the tree builder: the facet's term
filters grouped under the facet's own operator,
`new BooleanOpFilter(filter.operator, termFilters)`. -/
def buildFieldFilter (now : ℚ) (field : String) (facet : Facet) : Option Filter :=
  (termFiltersFor now field facet).map (Filter.boolOp facet.operator)

/-- The list of field-level filters: facets with an empty term list are
dropped, the rest are built by `buildFieldFilter`. -/
def fieldFiltersOf (now : ℚ) (q : List (String × Facet)) : Option (List Filter) :=
  mapAll (fun p => buildFieldFilter now p.1 p.2)
    (q.filter (fun p => decide (0 < p.2.terms.length)))

/-- The root filter: all field-level filters under one top-level AND. -/
def rootFilterOf (now : ℚ) (q : List (String × Facet)) : Option Filter :=
  (fieldFiltersOf now q).map (Filter.boolOp "and")

/-- The JS truthiness test `ann.id && ...` on the id: defined and non-empty. -/
def idTruthy (ann : Annotation) : Bool :=
  decide (ann.id.getD "" ≠ "")

/-- The final `.map(ann => ann.id)` projection (on the filtered list the id
is always present). -/
def annId (ann : Annotation) : String :=
  ann.id.getD ""

/-- Embedding of `filterAnnotations`: build the root filter from the query
and return, in input order, the ids of the annotations that have a truthy
id and match the root filter. `now` is the `Date.now()` reading, `none` a
thrown exception during tree construction. -/
def filterAnnotations (now : ℚ) (annotations : List Annotation)
    (filters : List (String × Facet)) : Option (List String) :=
  (rootFilterOf now filters).map (fun rootFilter =>
    (annotations.filter (fun ann => idTruthy ann && rootFilter.matches ann)).map annId)

/-- The field names the engine understands: the `"any"` pseudo-field plus
the six registry fields. -/
def knownFields : List String :=
  ["any", "quote", "since", "tag", "text", "uri", "user"]

/-- `Filter.allMatch` is `List.all` of `Filter.matches`. -/
theorem allMatch_eq (fs : List Filter) (ann : Annotation) :
    Filter.allMatch fs ann = fs.all (fun f => f.matches ann) := by
  induction fs with
  | nil => rfl
  | cons f fs ih => simp [Filter.allMatch, ih]

/-- `Filter.anyMatch` is `List.any` of `Filter.matches`. -/
theorem anyMatch_eq (fs : List Filter) (ann : Annotation) :
    Filter.anyMatch fs ann = fs.any (fun f => f.matches ann) := by
  induction fs with
  | nil => rfl
  | cons f fs ih => simp [Filter.anyMatch, ih]

/-- Evaluation of an AND combinator node. -/
theorem matches_boolOp_and (fs : List Filter) (ann : Annotation) :
    (Filter.boolOp "and" fs).matches ann = fs.all (fun f => f.matches ann) := by
  simp [Filter.matches, allMatch_eq]

/-- Evaluation of an OR combinator node. -/
theorem matches_boolOp_or (fs : List Filter) (ann : Annotation) :
    (Filter.boolOp "or" fs).matches ann = fs.any (fun f => f.matches ann) := by
  simp [Filter.matches, anyMatch_eq]

/-- Evaluation of a term leaf. -/
theorem matches_term_leaf (t : TermValue) (m : Matcher) (ann : Annotation) :
    (Filter.term t m).matches ann
      = (m.fieldValues ann).any (fun v => m.compare (m.normalize v) t) := by
  simp [Filter.matches]

/-- `mapAll` of a callback that never throws is plain `List.map`. -/
theorem mapAll_some_fun (g : α → β) (l : List α) :
    mapAll (fun a => some (g a)) l = some (l.map g) := by
  induction l with
  | nil => rfl
  | cons a as ih => simp [mapAll, ih]

/-- `mapAll` only looks at the callback's values on the list. -/
theorem mapAll_congr {f g : α → Option β} {l : List α}
    (h : ∀ a ∈ l, f a = g a) : mapAll f l = mapAll g l := by
  induction l with
  | nil => rfl
  | cons a as ih =>
    simp only [mapAll, h a (by simp)]
    rw [ih (fun a ha => h a (by simp [ha]))]

/-- If no element of the list makes the callback throw, `mapAll` succeeds. -/
theorem mapAll_isSome {f : α → Option β} {l : List α}
    (h : ∀ a ∈ l, (f a).isSome = true) : (mapAll f l).isSome = true := by
  induction l with
  | nil => rfl
  | cons a as ih =>
    have ha := h a (by simp)
    rcases Option.isSome_iff_exists.mp ha with ⟨b, hb⟩
    have has := ih (fun a ha => h a (by simp [ha]))
    rcases Option.isSome_iff_exists.mp has with ⟨bs, hbs⟩
    simp [mapAll, hb, hbs]

/-- If some element of the list makes the callback throw, `mapAll` throws. -/
theorem mapAll_none_of_mem {f : α → Option β} {l : List α} {a : α}
    (hmem : a ∈ l) (ha : f a = none) : mapAll f l = none := by
  induction l with
  | nil => cases hmem
  | cons b bs ih =>
    rcases List.mem_cons.mp hmem with h | h
    · subst h; simp [mapAll, ha]
    · cases hb : f b with
      | none => simp [mapAll, hb]
      | some c => simp [mapAll, hb, ih h]

/-- Only the `since` entry of the matcher registry reads the clock. -/
theorem fieldMatchers_clock_eq (now now' : ℚ) {field : String}
    (h : field ≠ "since") : fieldMatchers now field = fieldMatchers now' field := by
  unfold fieldMatchers
  split_ifs with h1 h2 <;> rfl

/-- A field outside `knownFields` has no registry entry. -/
theorem fieldMatchers_unknown (now : ℚ) {field : String}
    (h : field ∉ knownFields) : fieldMatchers now field = none := by
  unfold fieldMatchers
  split_ifs with h1 h2 h3 h4 h5 h6
  · exact absurd (h1 ▸ (by decide : ("quote" : String) ∈ knownFields)) h
  · exact absurd (h2 ▸ (by decide : ("since" : String) ∈ knownFields)) h
  · exact absurd (h3 ▸ (by decide : ("tag" : String) ∈ knownFields)) h
  · exact absurd (h4 ▸ (by decide : ("text" : String) ∈ knownFields)) h
  · exact absurd (h5 ▸ (by decide : ("uri" : String) ∈ knownFields)) h
  · exact absurd (h6 ▸ (by decide : ("user" : String) ∈ knownFields)) h
  · rfl

/-- A field inside `knownFields` other than `"any"` has a registry entry. -/
theorem fieldMatchers_known (now : ℚ) {field : String}
    (h : field ∈ knownFields) (hany : field ≠ "any") :
    (fieldMatchers now field).isSome = true := by
  simp only [knownFields, List.mem_cons, List.mem_singleton, List.not_mem_nil, or_false] at h
  rcases h with h | h | h | h | h | h | h <;> subst h <;> first
    | exact absurd rfl hany
    | rfl

/-- Claim C5: a `BooleanOpFilter` node with operator `"and"` matches iff
every child filter matches the annotation, and with operator `"or"` iff at
least one child matches; on the empty child list, `"and"` yields `true` and
`"or"` yields `false`. -/
theorem booleanOpFilter_semantics (ann : Annotation) (fs : List Filter) :
    ((Filter.boolOp "and" fs).matches ann = fs.all (fun f => f.matches ann))
    ∧ ((Filter.boolOp "or" fs).matches ann = fs.any (fun f => f.matches ann))
    ∧ ((Filter.boolOp "and" fs).matches ann = true ↔ ∀ f ∈ fs, f.matches ann = true)
    ∧ ((Filter.boolOp "or" fs).matches ann = true ↔ ∃ f ∈ fs, f.matches ann = true)
    ∧ (Filter.boolOp "and" []).matches ann = true
    ∧ (Filter.boolOp "or" []).matches ann = false := by
  refine ⟨matches_boolOp_and fs ann, matches_boolOp_or fs ann, ?_, ?_, rfl, rfl⟩
  · rw [matches_boolOp_and]; simp
  · rw [matches_boolOp_or]; simp

/-- Claim C7: `TermFilter.matches` is an existential over the extracted
field values — true iff at least one value extracted by the matcher's
`fieldValues`, once normalized by the matcher's `normalize`, satisfies the
matcher's comparison predicate against the term, which was normalized once
at construction time (`makeTermFilter` builds the leaf holding
`matcher.normalize term`). -/
theorem termFilter_semantics (ann : Annotation) (t : TermValue) (m : Matcher)
    (now : ℚ) (field : String) :
    ((Filter.term t m).matches ann
        = (m.fieldValues ann).any (fun v => m.compare (m.normalize v) t))
    ∧ ((Filter.term t m).matches ann = true
        ↔ ∃ v ∈ m.fieldValues ann, m.compare (m.normalize v) t = true)
    ∧ makeTermFilter now field t
        = (fieldMatchers now field).map
            (fun matcher => Filter.term (matcher.normalize t) matcher) := by
  refine ⟨matches_term_leaf t m ann, ?_, rfl⟩
  rw [matches_term_leaf]; simp

/-- Claim C4: the since term filter matches an annotation whose `updated`
timestamp converted to `u` epoch ms iff `(now - u) / 1000 ≤ a` for the
numeric term `a` (the since matcher's `normalize` is the identity, so the
stored term is `a` itself); in particular with term `60`, an annotation
updated 30 seconds ago matches and one updated 120 seconds ago does not. -/
theorem sinceMatcher_semantics (now u a : ℚ) (i : Option String) (te : String)
    (tg : List String) (ur us : String) (dn qv : Option String) :
    (makeTermFilter now "since" (TermValue.num (some a))
        = some (Filter.term (TermValue.num (some a)) (sinceMatcher now)))
    ∧ ((Filter.term (TermValue.num (some a)) (sinceMatcher now)).matches
          ⟨i, te, tg, ur, us, dn, some u, qv⟩ = true ↔ (now - u) / 1000 ≤ a)
    ∧ (Filter.term (TermValue.num (some 60)) (sinceMatcher now)).matches
        ⟨i, te, tg, ur, us, dn, some (now - 30000), qv⟩ = true
    ∧ (Filter.term (TermValue.num (some 60)) (sinceMatcher now)).matches
        ⟨i, te, tg, ur, us, dn, some (now - 120000), qv⟩ = false := by
  refine ⟨rfl, ?_, ?_, ?_⟩
  · simp [Filter.matches, sinceMatcher]
  · simp only [Filter.matches, sinceMatcher, List.any_cons, List.any_nil,
      Bool.or_false, decide_eq_true_eq, sub_sub_cancel]
    norm_num
  · simp only [Filter.matches, sinceMatcher, List.any_cons, List.any_nil,
      Bool.or_false, decide_eq_false_iff_not, sub_sub_cancel]
    norm_num

/-- The term filter the `"any"` expansion builds for one real field. -/
def anyTermNode (m : Matcher) (term : TermValue) : Filter :=
  Filter.term (m.normalize term) m

/-- The OR-combinator the tree builder creates for one term of the `"any"`
pseudo-field: term filters for that same term over exactly quote, text,
tag, user. -/
def anyOrNode (term : TermValue) : Filter :=
  Filter.boolOp "or"
    [anyTermNode quoteMatcher term, anyTermNode textMatcher term,
      anyTermNode tagMatcher term, anyTermNode userMatcher term]

/-- Claim C2: every term of an `"any"` facet becomes an OR-combinator of
term filters for that same term over exactly quote, text, tag, user (uri
and since excluded), and the query with the single facet
`any = (terms [t], operator "or")` matches an annotation exactly when at
least one of those four term filters does. -/
theorem anyField_expansion (now : ℚ) (facet : Facet) (t : TermValue)
    (ann : Annotation) :
    (termFiltersFor now "any" facet = some (facet.terms.map anyOrNode))
    ∧ (buildFieldFilter now "any" facet
        = some (Filter.boolOp facet.operator (facet.terms.map anyOrNode)))
    ∧ (rootFilterOf now [("any", Facet.mk [t] "or")]
        = some (Filter.boolOp "and" [Filter.boolOp "or" [anyOrNode t]]))
    ∧ ((Filter.boolOp "and" [Filter.boolOp "or" [anyOrNode t]]).matches ann
        = ((anyTermNode quoteMatcher t).matches ann
            || ((anyTermNode textMatcher t).matches ann
              || ((anyTermNode tagMatcher t).matches ann
                || (anyTermNode userMatcher t).matches ann)))) := by
  have hterm : ∀ u : TermValue,
      (mapAll (fun f => makeTermFilter now f u) anyFields).map (Filter.boolOp "or")
        = some (anyOrNode u) := fun u => rfl
  have h1 : ∀ fc : Facet, termFiltersFor now "any" fc = some (fc.terms.map anyOrNode) := by
    intro fc
    unfold termFiltersFor
    rw [if_pos rfl, mapAll_congr (fun u _ => hterm u), mapAll_some_fun]
  have h2 : ∀ fc : Facet, buildFieldFilter now "any" fc
      = some (Filter.boolOp fc.operator (fc.terms.map anyOrNode)) := by
    intro fc
    unfold buildFieldFilter
    rw [h1 fc]; rfl
  refine ⟨h1 facet, h2 facet, ?_, ?_⟩
  · have h3 := h2 (Facet.mk [t] "or")
    simp only [rootFilterOf, fieldFiltersOf, List.filter, mapAll]
    rw [h3]
    rfl
  · simp [matches_boolOp_and, matches_boolOp_or, anyOrNode]

/-- Claim C1: `filterAnnotations` returns exactly the identifiers of the
annotations that have a non-empty id and are matched by the root filter
built from the query — stated as the filter/map equation, as a membership
characterisation, and as order preservation (the result is a sublist of the
input's identifier sequence). -/
theorem filterAnnotations_result (now : ℚ) (anns : List Annotation)
    (q : List (String × Facet)) :
    (filterAnnotations now anns q
        = (rootFilterOf now q).map (fun root =>
            (anns.filter (fun ann => idTruthy ann && root.matches ann)).map annId))
    ∧ (∀ s : String, s ∈ (filterAnnotations now anns q).getD []
        ↔ ∃ root, rootFilterOf now q = some root
            ∧ ∃ ann ∈ anns, ann.id = some s ∧ s ≠ "" ∧ root.matches ann = true)
    ∧ List.Sublist ((filterAnnotations now anns q).getD []) (anns.map annId) := by
  refine ⟨rfl, ?_, ?_⟩
  · intro s
    cases hroot : rootFilterOf now q with
    | none => simp [filterAnnotations, hroot]
    | some root =>
      simp only [filterAnnotations, hroot, Option.map_some', Option.getD_some,
        List.mem_map, List.mem_filter, Bool.and_eq_true, Option.some.injEq]
      constructor
      · rintro ⟨ann, ⟨hmem, hid, hmatch⟩, hs⟩
        refine ⟨root, rfl, ann, hmem, ?_⟩
        have hne : ann.id.getD "" ≠ "" := by
          simpa [idTruthy] using hid
        cases hida : ann.id with
        | none => rw [hida] at hne; exact absurd rfl hne
        | some v =>
          rw [hida] at hne
          have hvs : v = s := by simpa [annId, hida] using hs
          subst hvs
          exact ⟨rfl, by simpa using hne, hmatch⟩
      · rintro ⟨root', hroot', ann, hmem, hid, hne, hmatch⟩
        cases hroot'
        refine ⟨ann, ⟨hmem, ?_, hmatch⟩, ?_⟩
        · simp [idTruthy, hid, hne]
        · simp [annId, hid]
  · cases hroot : rootFilterOf now q with
    | none => simp [filterAnnotations, hroot]
    | some root =>
      simp only [filterAnnotations, hroot, Option.map_some', Option.getD_some]
      exact List.Sublist.map annId (List.filter_sublist anns)

/-- Claim C6: the field-level combinator nodes are joined under a single
top-level AND — an annotation enters the result only if every facet with at
least one term is satisfied — while each facet node combines its own term
filters with the facet's own operator. -/
theorem filterAnnotations_cross_field_and (now : ℚ) (anns : List Annotation)
    (q : List (String × Facet)) (field : String) (facet : Facet) :
    (filterAnnotations now anns q
        = (fieldFiltersOf now q).map (fun ffs =>
            (anns.filter
              (fun ann => idTruthy ann && ffs.all (fun f => f.matches ann))).map annId))
    ∧ (buildFieldFilter now field facet
        = (termFiltersFor now field facet).map (Filter.boolOp facet.operator)) := by
  refine ⟨?_, rfl⟩
  cases hff : fieldFiltersOf now q with
  | none => simp [filterAnnotations, rootFilterOf, hff]
  | some ffs =>
    simp [filterAnnotations, rootFilterOf, hff, matches_boolOp_and]

/-- Claim C8: a query in which every facet has zero terms (including the
empty query) contributes no filter nodes — the root filter is an AND node
with no children — and `filterAnnotations` returns every annotation with a
non-empty id, in the original input order. -/
theorem filterAnnotations_empty_facets (now : ℚ) (anns : List Annotation)
    (q : List (String × Facet)) (h : ∀ p ∈ q, p.2.terms = []) :
    rootFilterOf now q = some (Filter.boolOp "and" [])
    ∧ filterAnnotations now anns q = some ((anns.filter idTruthy).map annId) := by
  have hfilter : q.filter (fun p => decide (0 < p.2.terms.length)) = [] := by
    rw [List.filter_eq_nil_iff]
    intro p hp
    simp [h p hp]
  have hroot : rootFilterOf now q = some (Filter.boolOp "and" []) := by
    simp [rootFilterOf, fieldFiltersOf, hfilter, mapAll]
  refine ⟨hroot, ?_⟩
  have hmatch : ∀ ann : Annotation, (Filter.boolOp "and" []).matches ann = true :=
    fun ann => rfl
  simp [filterAnnotations, hroot, hmatch]

/-- Input data for the worked instance of claim C8: one annotation with id
"a1", one with no id, one with an empty id. -/
def emptyFacetAnns : List Annotation :=
  [⟨some "a1", "body", ["tg"], "http://e.com", "u", none, some 0, none⟩,
    ⟨none, "body", [], "http://e.com", "u", none, some 0, none⟩,
    ⟨some "", "body", [], "http://e.com", "u", none, some 0, none⟩]

/-- Witness for claim C8 at a concrete input: a query whose two facets both
have zero terms returns exactly the one annotation with a non-empty id. -/
theorem filterAnnotations_empty_facets_witness :
    filterAnnotations 0 emptyFacetAnns
        [("text", Facet.mk [] "and"), ("any", Facet.mk [] "or")]
      = some ["a1"] := by
  have h := (filterAnnotations_empty_facets 0 emptyFacetAnns
    [("text", Facet.mk [] "and"), ("any", Facet.mk [] "or")] (by decide)).2
  rw [h]
  rfl

/-- An annotation updated at epoch instant 0, with id "a1". -/
def clockAnn : Annotation :=
  ⟨some "a1", "", [], "", "", none, some 0, none⟩

/-- A query asking for annotations updated in the last 60 seconds. -/
def clockQuery : List (String × Facet) :=
  [("since", Facet.mk [TermValue.num (some 60)] "and")]

/-- Claim C3 counterexample: with the identical annotation list and the
identical query, two invocations return different identifier lists once
the clock (the `Date.now()` reading of the since matcher) has moved, so
the result is not a function of the two arguments alone. -/
theorem filterAnnotations_clock_counterexample :
    filterAnnotations 0 [clockAnn] clockQuery
      ≠ filterAnnotations 1000000 [clockAnn] clockQuery := by
  have e1 : ((0 : ℚ) - 0) / 1000 ≤ 60 := by norm_num
  have e2 : ¬ (((1000000 : ℚ) - 0) / 1000 ≤ 60) := by norm_num
  have h1 : filterAnnotations 0 [clockAnn] clockQuery = some ["a1"] := by
    simp [filterAnnotations, rootFilterOf, fieldFiltersOf, clockQuery, clockAnn,
      mapAll, buildFieldFilter, termFiltersFor, makeTermFilter, fieldMatchers,
      Filter.matches, Filter.allMatch, Filter.anyMatch, sinceMatcher, idTruthy,
      annId, e1]
  have h2 : filterAnnotations 1000000 [clockAnn] clockQuery = some [] := by
    simp only [filterAnnotations, rootFilterOf, fieldFiltersOf, clockQuery, clockAnn,
      mapAll, buildFieldFilter, termFiltersFor, makeTermFilter, fieldMatchers,
      Filter.matches, Filter.allMatch, Filter.anyMatch, sinceMatcher, idTruthy,
      annId]
    simp [Filter.matches, Filter.allMatch, Filter.anyMatch, sinceMatcher,
      decide_eq_false e2]
    norm_num
  rw [h1, h2]
  simp

/-- Claim C3 amended: the engine mutates nothing and is deterministic given
the clock; the clock is the one piece of state outside the two arguments it
reads, and only through the since matcher, so for every query whose
`"since"` facets (if any) have zero terms the result is independent of the
clock reading. -/
theorem filterAnnotations_clock_independent (now now' : ℚ)
    (anns : List Annotation) (q : List (String × Facet))
    (h : ∀ p ∈ q, p.1 = "since" → p.2.terms = []) :
    filterAnnotations now anns q = filterAnnotations now' anns q := by
  have hmk : ∀ (f : String), f ≠ "since" → ∀ t : TermValue,
      makeTermFilter now f t = makeTermFilter now' f t := by
    intro f hf t
    unfold makeTermFilter
    rw [fieldMatchers_clock_eq now now' hf]
  have hanyne : ∀ f ∈ anyFields, f ≠ "since" := by decide
  have hb : ∀ p ∈ q.filter (fun p => decide (0 < p.2.terms.length)),
      buildFieldFilter now p.1 p.2 = buildFieldFilter now' p.1 p.2 := by
    intro p hp
    rcases List.mem_filter.mp hp with ⟨hq, hlen⟩
    have hfield : p.1 ≠ "since" := by
      intro hs
      rw [h p hq hs] at hlen
      simp at hlen
    unfold buildFieldFilter termFiltersFor
    by_cases hany : p.1 = "any"
    · rw [if_pos hany, if_pos hany]
      exact congrArg (Option.map (Filter.boolOp p.2.operator))
        (mapAll_congr (fun term _ =>
          congrArg (Option.map (Filter.boolOp "or"))
            (mapAll_congr (fun f hf => hmk f (hanyne f hf) term))))
    · rw [if_neg hany, if_neg hany]
      exact congrArg (Option.map (Filter.boolOp p.2.operator))
        (mapAll_congr (fun term _ => hmk p.1 hfield term))
  unfold filterAnnotations rootFilterOf fieldFiltersOf
  rw [mapAll_congr hb]

/-- Witness for the amended claim C3 at a concrete input: without a since
facet, evaluating at clock reading 0 and at clock reading 5000 gives the
same result. -/
theorem filterAnnotations_clock_independent_witness :
    filterAnnotations 0 [clockAnn] [("text", Facet.mk [TermValue.str "a"] "and")]
      = filterAnnotations 5000 [clockAnn] [("text", Facet.mk [TermValue.str "a"] "and")] :=
  filterAnnotations_clock_independent 0 5000 [clockAnn]
    [("text", Facet.mk [TermValue.str "a"] "and")] (by decide)

/-- A term filter for a known field other than `"any"` always builds. -/
theorem makeTermFilter_isSome (now : ℚ) {field : String} (t : TermValue)
    (hf : field ∈ knownFields) (hany : field ≠ "any") :
    (makeTermFilter now field t).isSome = true := by
  unfold makeTermFilter
  rw [Option.isSome_map']
  exact fieldMatchers_known now hf hany

/-- Tree construction succeeds for every facet over a known field. -/
theorem buildFieldFilter_isSome (now : ℚ) {field : String} (facet : Facet)
    (hf : field ∈ knownFields) :
    (buildFieldFilter now field facet).isSome = true := by
  unfold buildFieldFilter termFiltersFor
  rw [Option.isSome_map']
  by_cases hany : field = "any"
  · rw [if_pos hany]
    apply mapAll_isSome
    intro term _
    rw [Option.isSome_map']
    apply mapAll_isSome
    intro f hfany
    have hmem4 : f = "quote" ∨ f = "text" ∨ f = "tag" ∨ f = "user" := by
      simpa [anyFields] using hfany
    rcases hmem4 with rfl | rfl | rfl | rfl <;>
      exact makeTermFilter_isSome now term (by decide) (by decide)
  · rw [if_neg hany]
    apply mapAll_isSome
    intro term _
    exact makeTermFilter_isSome now term hf hany

/-- Claim C9: `filterAnnotations` throws for no well-formed structured
query (every facet field known to the engine), and an annotation whose
`updated` timestamp is unparseable (`NaN`, modelled `none`) merely fails
the since comparison — the value degrades to "does not match" instead of
aborting the evaluation. -/
theorem filterAnnotations_total (now : ℚ) (anns : List Annotation)
    (q : List (String × Facet)) (h : ∀ p ∈ q, p.1 ∈ knownFields) :
    (filterAnnotations now anns q).isSome = true
    ∧ ∀ (a : Option ℚ) (i : Option String) (te : String) (tg : List String)
        (ur us : String) (dn qv : Option String),
        (Filter.term (TermValue.num a) (sinceMatcher now)).matches
          ⟨i, te, tg, ur, us, dn, none, qv⟩ = false := by
  constructor
  · unfold filterAnnotations rootFilterOf fieldFiltersOf
    rw [Option.isSome_map', Option.isSome_map']
    apply mapAll_isSome
    intro p hp
    exact buildFieldFilter_isSome now p.2 (h p (List.mem_of_mem_filter hp))
  · intro a i te tg ur us dn qv
    simp [Filter.matches, sinceMatcher]

/-- Input data for the worked instance of claim C9: an annotation whose
updated timestamp failed to parse (`NaN`). -/
def nanAnn : Annotation :=
  ⟨some "a1", "body", [], "", "", none, none, none⟩

/-- Witness for claim C9 at a concrete input: a query using every facet
kind, including since, evaluates without throwing on an annotation whose
updated timestamp is unparseable. -/
theorem filterAnnotations_total_witness :
    (filterAnnotations 0 [nanAnn]
        [("since", Facet.mk [TermValue.num (some 60)] "and"),
          ("any", Facet.mk [TermValue.str "x"] "or")]).isSome = true :=
  (filterAnnotations_total 0 [nanAnn]
    [("since", Facet.mk [TermValue.num (some 60)] "and"),
      ("any", Facet.mk [TermValue.str "x"] "or")] (by decide)).1

/-- Claim C10: a facet whose field is neither `"any"` nor in the registry
and whose term list is non-empty makes tree construction throw (the matcher
lookup is `undefined` and the `TermFilter` constructor calls `normalize` on
it): `filterAnnotations` aborts, and does not silently ignore the field. -/
theorem filterAnnotations_unknown_field (now : ℚ) (anns : List Annotation)
    (q : List (String × Facet)) (field : String) (facet : Facet)
    (hmem : (field, facet) ∈ q) (hunk : field ∉ knownFields)
    (hterms : facet.terms ≠ []) :
    filterAnnotations now anns q = none := by
  have hany : field ≠ "any" := by
    intro hf
    exact hunk (hf ▸ (by decide : ("any" : String) ∈ knownFields))
  have hbuild : buildFieldFilter now field facet = none := by
    unfold buildFieldFilter termFiltersFor
    rw [if_neg hany]
    cases ht : facet.terms with
    | nil => exact absurd ht hterms
    | cons t ts =>
      have hmk : makeTermFilter now field t = none := by
        unfold makeTermFilter
        rw [fieldMatchers_unknown now hunk]
        rfl
      simp [mapAll, hmk]
  have hfmem : (field, facet) ∈ q.filter (fun p => decide (0 < p.2.terms.length)) :=
    List.mem_filter.mpr
      ⟨hmem, decide_eq_true (List.length_pos_iff_ne_nil.mpr hterms)⟩
  unfold filterAnnotations rootFilterOf fieldFiltersOf
  rw [mapAll_none_of_mem hfmem hbuild]
  rfl

/-- Witness for claim C10 at a concrete input: a query with the unknown
field "foo" and one term aborts tree construction. -/
theorem filterAnnotations_unknown_field_witness :
    filterAnnotations 0 [nanAnn] [("foo", Facet.mk [TermValue.str "x"] "and")] = none :=
  filterAnnotations_unknown_field 0 [nanAnn]
    [("foo", Facet.mk [TermValue.str "x"] "and")] "foo"
    (Facet.mk [TermValue.str "x"] "and") (by decide) (by decide) (by decide)

/-- A concrete annotation used by the worked instances below. -/
def sampleAnn : Annotation :=
  ⟨some "a1", "body", ["tg"], "http://e.com", "user1", none, some 0, none⟩

/-- Witness for claim C1 at a concrete input: a tag query on `sampleAnn`
returns exactly its id. -/
theorem filterAnnotations_result_witness :
    filterAnnotations 0 [sampleAnn] [("tag", Facet.mk [TermValue.str "tg"] "and")]
      = some ["a1"] := by
  have h := (filterAnnotations_result 0 [sampleAnn]
    [("tag", Facet.mk [TermValue.str "tg"] "and")]).1
  rw [h]
  rfl

/-- Witness for claim C2 at a concrete input: the root filter built for the
single-term "any" query is the AND of one OR node over the four-field
expansion of that term. -/
theorem anyField_expansion_witness :
    rootFilterOf 0 [("any", Facet.mk [TermValue.str "x"] "or")]
      = some (Filter.boolOp "and"
          [Filter.boolOp "or" [anyOrNode (TermValue.str "x")]]) :=
  (anyField_expansion 0 (Facet.mk [TermValue.str "x"] "or") (TermValue.str "x")
    sampleAnn).2.2.1

/-- Witness for claim C4 at a concrete input: with clock reading 100000 ms,
an annotation updated 30 s earlier matches the since term 60. -/
theorem sinceMatcher_semantics_witness :
    (Filter.term (TermValue.num (some 60)) (sinceMatcher 100000)).matches
      ⟨some "a1", "", [], "", "", none, some (100000 - 30000), none⟩ = true :=
  (sinceMatcher_semantics 100000 0 0 (some "a1") "" [] "" "" none none).2.2.1

/-- Witness for claim C5 at a concrete input: the empty AND node accepts
`sampleAnn` and the empty OR node rejects it. -/
theorem booleanOpFilter_semantics_witness :
    (Filter.boolOp "and" []).matches sampleAnn = true
    ∧ (Filter.boolOp "or" []).matches sampleAnn = false :=
  ⟨(booleanOpFilter_semantics sampleAnn []).2.2.2.2.1,
    (booleanOpFilter_semantics sampleAnn []).2.2.2.2.2⟩

/-- Witness for claim C6 at a concrete input: with no facets, the top-level
AND node over no field filters lets the identified annotation through. -/
theorem filterAnnotations_cross_field_and_witness :
    filterAnnotations 0 [sampleAnn] [] = some ["a1"] := by
  have h := (filterAnnotations_cross_field_and 0 [sampleAnn] [] "text"
    (Facet.mk [] "and")).1
  rw [h]
  rfl

/-- Witness for claim C7 at a concrete input: the tag term filter for "tg"
matches `sampleAnn`, which carries that tag. -/
theorem termFilter_semantics_witness :
    (Filter.term (TermValue.str "tg") tagMatcher).matches sampleAnn = true := by
  have h := (termFilter_semantics sampleAnn (TermValue.str "tg") tagMatcher 0 "tag").1
  rw [h]
  rfl

end SearchFilter
